import Mathlib

/-!
Verification of the RSU selling calculator (French RSU tax engine).

The Python sources are embedded shallowly over the rationals: every float
of the source becomes a rational number, so the arithmetic identities of
the source hold exactly.  Calendar dates are modelled by a proleptic
Gregorian date type mirroring the semantics of Python dates, and the
relativedelta decomposition used by calculate_years_held is modelled from
the algorithm of the dateutil library (an external dependency of the
repository, not part of its sources).
-/

namespace RSU

/-- Tax regimes, from the TaxRegime enum of calculations.py. -/
inductive TaxRegime where
  | MACRON_I
  | MACRON_III
  | UNRESTRICTED
deriving DecidableEq, Repr

/-- CAPITAL_GAIN_PFU_RATE of calculations.py: flat 30 percent PFU. -/
def CAPITAL_GAIN_PFU_RATE : ℚ := 0.30

/-- FRENCH_TAX_BRACKETS_2025 of calculations.py: list of
(threshold, rate) pairs, the rate applying to income above the threshold. -/
def FRENCH_TAX_BRACKETS_2025 : List (ℚ × ℚ) :=
  [(0, 0.00), (11497, 0.11), (29315, 0.30), (83823, 0.41), (180294, 0.45)]

/-- SOCIAL_SECURITY_RATES of calculations.py.  The Python source is a
dict covering all three regimes, read with .get(regime, 0.172); since the
dict is total over the enum the default never fires, and the dict is a
function of the regime. -/
def SOCIAL_SECURITY_RATES : TaxRegime → ℚ
  | .MACRON_I => 0.172
  | .MACRON_III => 0.172
  | .UNRESTRICTED => 0.097

/-- MACRON_III_THRESHOLD of calculations.py. -/
def MACRON_III_THRESHOLD : ℚ := 300000

/-- MACRON_III_OVER_THRESHOLD_SOCIAL_RATE of calculations.py. -/
def MACRON_III_OVER_THRESHOLD_SOCIAL_RATE : ℚ := 0.097

/-- MACRON_III_SALARIALE_CONTRIBUTION of calculations.py. -/
def MACRON_III_SALARIALE_CONTRIBUTION : ℚ := 0.10

/-- get_marginal_tax_rate of calculations.py: start from rate 0 and walk
the bracket list, updating the rate whenever the income exceeds the
threshold. -/
def get_marginal_tax_rate (annual_income : ℚ) : ℚ :=
  FRENCH_TAX_BRACKETS_2025.foldl
    (fun rate p => if annual_income > p.1 then p.2 else rate) 0

/-- The loop of calculate_progressive_income_tax: each step sees the
current bracket together with the rest of the list (whose head, when it
exists, carries the next threshold; the last bracket has ceiling
min(income, infinity) = income).  The break on income below the threshold
returns the sum accumulated so far, i.e. adds nothing further. -/
def progressive_tax_loop (taxable_income : ℚ) : List (ℚ × ℚ) → ℚ
  | [] => 0
  | (threshold, rate) :: rest =>
    if taxable_income ≤ threshold then 0
    else
      let bracket_ceiling :=
        match rest with
        | [] => taxable_income
        | (next_threshold, _) :: _ => min taxable_income next_threshold
      (bracket_ceiling - threshold) * rate + progressive_tax_loop taxable_income rest

/-- calculate_progressive_income_tax of calculations.py. -/
def calculate_progressive_income_tax (taxable_income : ℚ) : ℚ :=
  if taxable_income ≤ 0 then 0
  else progressive_tax_loop taxable_income FRENCH_TAX_BRACKETS_2025

/-- calculate_tax_on_additional_income of calculations.py:
tax(base + additional) - tax(base). -/
def calculate_tax_on_additional_income (base_income additional_income : ℚ) : ℚ :=
  calculate_progressive_income_tax (base_income + additional_income)
    - calculate_progressive_income_tax base_income

/-- calculate_taper_relief_macron_i of calculations.py. -/
def calculate_taper_relief_macron_i (years_held : ℚ) : Bool × ℚ :=
  if years_held ≥ 8 then (true, 0.65)
  else if years_held ≥ 2 then (true, 0.50)
  else (false, 0.0)

/-- calculate_taper_relief_macron_iii of calculations.py. -/
def calculate_taper_relief_macron_iii (acquisition_gain : ℚ) : Bool × ℚ × Bool :=
  if acquisition_gain ≤ MACRON_III_THRESHOLD then (true, 0.50, false)
  else (false, 0.0, true)

/-- calculate_taper_relief of calculations.py: dispatch on the regime. -/
def calculate_taper_relief (years_held : ℚ) (regime : TaxRegime)
    (acquisition_gain : ℚ) : Bool × ℚ :=
  if regime = .MACRON_I then calculate_taper_relief_macron_i years_held
  else if regime = .MACRON_III then
    let r := calculate_taper_relief_macron_iii acquisition_gain
    (r.1, r.2.1)
  else (false, 0.0)

/-- convert_usd_to_eur of calculations.py. -/
def convert_usd_to_eur (usd_amount usd_to_eur : ℚ) : ℚ :=
  usd_amount * usd_to_eur

/-- calculate_gross_proceed of calculations.py. -/
def calculate_gross_proceed (num_shares : ℤ) (current_value_eur : ℚ) : ℚ :=
  (num_shares : ℚ) * current_value_eur

/-- calculate_acquisition_gain of calculations.py. -/
def calculate_acquisition_gain (num_shares : ℤ) (vesting_value_eur : ℚ) : ℚ :=
  (num_shares : ℚ) * vesting_value_eur

/-- calculate_acquisition_gain_after_relief of calculations.py. -/
def calculate_acquisition_gain_after_relief
    (acquisition_gain taper_relief_rate : ℚ) : ℚ :=
  acquisition_gain * (1 - taper_relief_rate)

/-- calculate_capital_gain of calculations.py. -/
def calculate_capital_gain (gross_proceed acquisition_gain : ℚ) : ℚ :=
  gross_proceed - acquisition_gain

/-- calculate_acquisition_social_security of calculations.py. -/
def calculate_acquisition_social_security
    (acquisition_gain_after_relief : ℚ) (regime : TaxRegime)
    (acquisition_gain : ℚ) : ℚ :=
  if regime = .MACRON_III ∧ acquisition_gain > MACRON_III_THRESHOLD then
    acquisition_gain_after_relief * MACRON_III_OVER_THRESHOLD_SOCIAL_RATE
  else
    acquisition_gain_after_relief * SOCIAL_SECURITY_RATES regime

/-- calculate_acquisition_income_tax of calculations.py: progressive on
top of the annual income when one is supplied, else the flat fallback
rate, else a default flat 30 percent. -/
def calculate_acquisition_income_tax
    (acquisition_gain_after_relief : ℚ) (annual_income : Option ℚ)
    (tax_rate : Option ℚ) : ℚ :=
  match annual_income with
  | some income =>
      calculate_tax_on_additional_income income acquisition_gain_after_relief
  | none =>
      match tax_rate with
      | some rate => acquisition_gain_after_relief * rate
      | none => acquisition_gain_after_relief * 0.30

/-- calculate_capital_gain_tax of calculations.py: only positive capital
gains are taxed, at the flat PFU rate. -/
def calculate_capital_gain_tax (capital_gain : ℚ) : ℚ :=
  if capital_gain > 0 then capital_gain * CAPITAL_GAIN_PFU_RATE else 0

/-- calculate_salariale_contribution of calculations.py. -/
def calculate_salariale_contribution
    (acquisition_gain : ℚ) (regime : TaxRegime) : ℚ :=
  if regime = .MACRON_III ∧ acquisition_gain > MACRON_III_THRESHOLD then
    acquisition_gain * MACRON_III_SALARIALE_CONTRIBUTION
  else 0

/-- calculate_total_taxes of calculations.py. -/
def calculate_total_taxes (acquisition_social_security acquisition_income_tax
    capital_gain_tax salariale_contribution : ℚ) : ℚ :=
  acquisition_social_security + acquisition_income_tax
    + capital_gain_tax + salariale_contribution

/-- calculate_net_in_pocket of calculations.py. -/
def calculate_net_in_pocket (gross_proceed total_taxes : ℚ) : ℚ :=
  gross_proceed - total_taxes

/-- calculate_effective_tax_rate of calculations.py: zero on non-positive
gross proceeds, otherwise a percentage. -/
def calculate_effective_tax_rate (total_taxes gross_proceed : ℚ) : ℚ :=
  if gross_proceed ≤ 0 then 0 else total_taxes / gross_proceed * 100

/-- A proleptic Gregorian calendar date, as the Python datetime.date
triple of year, month and day.  Python restricts years to 1..9999; the
Valid predicate below captures year at least 1 together with the month
and day ranges. -/
structure PyDate where
  year : ℤ
  month : ℤ
  day : ℤ
deriving DecidableEq, Repr

/-- Gregorian leap-year test, as in the Python calendar module. -/
def isLeap (y : ℤ) : Prop := (y % 4 = 0 ∧ y % 100 ≠ 0) ∨ y % 400 = 0

instance (y : ℤ) : Decidable (isLeap y) := by unfold isLeap; infer_instance

/-- Length of a month, as Python calendar.monthrange. -/
def daysInMonth (y m : ℤ) : ℤ :=
  if m = 2 then (if isLeap y then 29 else 28)
  else if m = 4 ∨ m = 6 ∨ m = 9 ∨ m = 11 then 30
  else 31

/-- Cumulative day count of the months before month m in a common year. -/
def monthOffset (m : ℤ) : ℤ :=
  if m ≤ 1 then 0 else if m = 2 then 31 else if m = 3 then 59
  else if m = 4 then 90 else if m = 5 then 120 else if m = 6 then 151
  else if m = 7 then 181 else if m = 8 then 212 else if m = 9 then 243
  else if m = 10 then 273 else if m = 11 then 304 else 334

/-- Days in the months of year y strictly before month m. -/
def daysBeforeMonth (y m : ℤ) : ℤ :=
  monthOffset m + (if 2 < m ∧ isLeap y then 1 else 0)

/-- Days in the years strictly before year y (the Python
datetime _days_before_year formula). -/
def daysBeforeYear (y : ℤ) : ℤ :=
  365 * (y - 1) + (y - 1) / 4 - (y - 1) / 100 + (y - 1) / 400

/-- Python date.toordinal: day number with 0001-01-01 as day one. -/
def toOrdinal (d : PyDate) : ℤ :=
  daysBeforeYear d.year + daysBeforeMonth d.year d.month + d.day

/-- Well-formedness of a date, matching the constraints that the Python
date constructor enforces. -/
def PyDate.Valid (d : PyDate) : Prop :=
  1 ≤ d.year ∧ 1 ≤ d.month ∧ d.month ≤ 12 ∧ 1 ≤ d.day ∧
    d.day ≤ daysInMonth d.year d.month

instance (d : PyDate) : Decidable d.Valid := by unfold PyDate.Valid; infer_instance

/-- Python date comparison: lexicographic on (year, month, day). -/
def dateLt (a b : PyDate) : Prop :=
  a.year < b.year ∨ (a.year = b.year ∧
    (a.month < b.month ∨ (a.month = b.month ∧ a.day < b.day)))

instance (a b : PyDate) : Decidable (dateLt a b) := by
  unfold dateLt; infer_instance

/-- The _set_months normalization of dateutil relativedelta: a month
count is split into whole years and leftover months by sign-magnitude
division when its absolute value exceeds 11. -/
def setMonths (months : ℤ) : ℤ × ℤ :=
  if months.natAbs ≤ 11 then (0, months)
  else
    let s : ℤ := if 0 ≤ months then 1 else -1
    (s * ((months.natAbs : ℤ) / 12), s * ((months.natAbs : ℤ) % 12))

/-- Adding a normalized (years, months) relativedelta to a date, as the
dateutil radd: add the years and months, carry the month into the year
when it leaves 1..12, and clamp the day to the length of the resulting
month. -/
def raddMonths (d : PyDate) (years months : ℤ) : PyDate :=
  let y1 := d.year + years
  let m1 := d.month + months
  let ym := if m1 > 12 then (y1 + 1, m1 - 12)
            else if m1 < 1 then (y1 - 1, m1 + 12)
            else (y1, m1)
  ⟨ym.1, ym.2, min d.day (daysInMonth ym.1 ym.2)⟩

/-- Modelled from the dateutil library (an external dependency whose
code is not part of this repository): relativedelta(dt1, dt2) computes
the exact month difference, adds it to dt2, and corrects by one month
when the clamped landing date overshoots dt1; the remaining gap is the
day component.  The dateutil source corrects with a while loop, but the
initial landing date always lies in the calendar month of dt1, so one
correction step lands in an adjacent month and is always enough; the
loop body therefore runs at most once and is modelled by a single
conditional step.  Returns (years, months, days). -/
def relativedelta_dates (dt1 dt2 : PyDate) : ℤ × ℤ × ℤ :=
  let months0 := (dt1.year - dt2.year) * 12 + (dt1.month - dt2.month)
  let ym0 := setMonths months0
  let dtm0 := raddMonths dt2 ym0.1 ym0.2
  let months := if dateLt dt1 dt2 then
                  (if dateLt dtm0 dt1 then months0 + 1 else months0)
                else
                  (if dateLt dt1 dtm0 then months0 - 1 else months0)
  let ym := setMonths months
  let dtm := raddMonths dt2 ym.1 ym.2
  (ym.1, ym.2, toOrdinal dt1 - toOrdinal dtm)

/-- calculate_years_held of calculations.py: the relativedelta between
sell and vesting dates combined as years + months/12 + days/365. -/
def calculate_years_held (vesting_date sell_date : PyDate) : ℚ :=
  let delta := relativedelta_dates sell_date vesting_date
  (delta.1 : ℚ) + (delta.2.1 : ℚ) / 12 + (delta.2.2 : ℚ) / 365

/-- RSUInput dataclass of calculations.py.  The two optional tax-rate
fields keep their Python None as Option none. -/
structure RSUInput where
  vesting_date : PyDate
  sell_date : PyDate
  num_shares : ℤ
  vesting_value_usd : ℚ
  current_value_usd : ℚ
  usd_to_eur : ℚ
  regime : TaxRegime
  annual_income : Option ℚ
  acquisition_tax_rate : Option ℚ

/-- The explanatory note returned by get_regime_notes of calculations.py,
one constructor per message branch.  The Python function renders these as
strings; the one dynamic quantity (the years still needed before Macron I
relief, 2 - years_held, rendered with one decimal) is carried unformatted,
since string formatting of floats is outside this rational embedding. -/
inductive RegimeNote where
  | macron_i_65
  | macron_i_50
  | macron_i_none (years_needed : ℚ)
  | macron_iii_over
  | macron_iii_under
  | unrestricted
deriving DecidableEq, Repr

/-- get_regime_notes of calculations.py (the taper_relief_rate parameter
is present in the source and unused there as well). -/
def get_regime_notes (regime : TaxRegime) (years_held acquisition_gain
    taper_relief_rate : ℚ) : RegimeNote :=
  if regime = .MACRON_I then
    if years_held ≥ 8 then .macron_i_65
    else if years_held ≥ 2 then .macron_i_50
    else .macron_i_none (2 - years_held)
  else if regime = .MACRON_III then
    if acquisition_gain > MACRON_III_THRESHOLD then .macron_iii_over
    else .macron_iii_under
  else .unrestricted

/-- RSUResult dataclass of calculations.py. -/
structure RSUResult where
  years_held : ℚ
  has_taper_relief : Bool
  taper_relief_rate : ℚ
  vesting_value_eur : ℚ
  current_value_eur : ℚ
  gross_proceed : ℚ
  acquisition_gain : ℚ
  acquisition_gain_after_relief : ℚ
  capital_gain : ℚ
  acquisition_social_security : ℚ
  acquisition_income_tax : ℚ
  capital_gain_tax : ℚ
  salariale_contribution : ℚ
  total_taxes : ℚ
  net_in_pocket : ℚ
  effective_tax_rate : ℚ
  regime : TaxRegime
  regime_notes : RegimeNote

/-- calculate_rsu_taxes of calculations.py: the full pipeline. -/
def calculate_rsu_taxes (input_data : RSUInput) : RSUResult :=
  let years_held := calculate_years_held input_data.vesting_date input_data.sell_date
  let vesting_value_eur :=
    convert_usd_to_eur input_data.vesting_value_usd input_data.usd_to_eur
  let current_value_eur :=
    convert_usd_to_eur input_data.current_value_usd input_data.usd_to_eur
  let acquisition_gain :=
    calculate_acquisition_gain input_data.num_shares vesting_value_eur
  let relief := calculate_taper_relief years_held input_data.regime acquisition_gain
  let has_taper_relief := relief.1
  let taper_relief_rate := relief.2
  let acquisition_gain_after_relief :=
    calculate_acquisition_gain_after_relief acquisition_gain taper_relief_rate
  let gross_proceed := calculate_gross_proceed input_data.num_shares current_value_eur
  let capital_gain := calculate_capital_gain gross_proceed acquisition_gain
  let acquisition_social_security :=
    calculate_acquisition_social_security acquisition_gain_after_relief
      input_data.regime acquisition_gain
  let acquisition_income_tax :=
    calculate_acquisition_income_tax acquisition_gain_after_relief
      input_data.annual_income input_data.acquisition_tax_rate
  let capital_gain_tax := calculate_capital_gain_tax capital_gain
  let salariale_contribution :=
    calculate_salariale_contribution acquisition_gain input_data.regime
  let total_taxes := calculate_total_taxes acquisition_social_security
    acquisition_income_tax capital_gain_tax salariale_contribution
  let net_in_pocket := calculate_net_in_pocket gross_proceed total_taxes
  let effective_tax_rate := calculate_effective_tax_rate total_taxes gross_proceed
  let regime_notes := get_regime_notes input_data.regime years_held
    acquisition_gain taper_relief_rate
  { years_held := years_held
    has_taper_relief := has_taper_relief
    taper_relief_rate := taper_relief_rate
    vesting_value_eur := vesting_value_eur
    current_value_eur := current_value_eur
    gross_proceed := gross_proceed
    acquisition_gain := acquisition_gain
    acquisition_gain_after_relief := acquisition_gain_after_relief
    capital_gain := capital_gain
    acquisition_social_security := acquisition_social_security
    acquisition_income_tax := acquisition_income_tax
    capital_gain_tax := capital_gain_tax
    salariale_contribution := salariale_contribution
    total_taxes := total_taxes
    net_in_pocket := net_in_pocket
    effective_tax_rate := effective_tax_rate
    regime := input_data.regime
    regime_notes := regime_notes }

/-- ScenarioInput dataclass of rsu_calculator.py. -/
structure ScenarioInput where
  name : String
  stock_ticker : String
  vesting_date : PyDate
  sell_date : PyDate
  num_shares : ℤ
  vesting_value_usd : ℚ
  current_value_usd : ℚ
  usd_to_eur : ℚ
  regime : TaxRegime
  use_progressive_tax : Bool
  annual_income : Option ℚ
  tax_rate : ℚ

/-- ScenarioResult dataclass of rsu_calculator.py. -/
structure ScenarioResult where
  input : ScenarioInput
  years_held : ℚ
  has_taper_relief : Bool
  taper_relief_rate : ℚ
  relief_description : String
  vesting_value_eur : ℚ
  current_value_eur : ℚ
  gross_proceed : ℚ
  acquisition_gain : ℚ
  acquisition_gain_after_relief : ℚ
  capital_gain : ℚ
  effective_social_rate : ℚ
  acquisition_social_security : ℚ
  acquisition_income_tax : ℚ
  capital_gain_tax : ℚ
  salariale_contribution : ℚ
  total_taxes : ℚ
  net_in_pocket : ℚ
  effective_tax_rate : ℚ

/-- calculate_scenario of rsu_calculator.py: the duplicate calculation
path of the UI, with the relief and tax logic written inline. -/
def calculate_scenario (input_data : ScenarioInput) : ScenarioResult :=
  let delta := relativedelta_dates input_data.sell_date input_data.vesting_date
  let years_held := (delta.1 : ℚ) + (delta.2.1 : ℚ) / 12 + (delta.2.2 : ℚ) / 365
  let current_value_eur := input_data.current_value_usd * input_data.usd_to_eur
  let vesting_value_eur := input_data.vesting_value_usd * input_data.usd_to_eur
  let gross_proceed := (input_data.num_shares : ℚ) * current_value_eur
  let acquisition_gain := (input_data.num_shares : ℚ) * vesting_value_eur
  let capital_gain := gross_proceed - acquisition_gain
  let relief : Bool × ℚ × String :=
    if input_data.regime = .MACRON_I then
      if years_held ≥ 8 then (true, 0.65, "65% (held 8+ years)")
      else if years_held ≥ 2 then (true, 0.50, "50% (held 2-8 years)")
      else (false, 0.0, "None (need 2+ years)")
    else if input_data.regime = .MACRON_III then
      if acquisition_gain ≤ MACRON_III_THRESHOLD then
        (true, 0.50, "50% (under €300,000)")
      else (false, 0.0, "None (over €300,000)")
    else (false, 0.0, "None (unrestricted)")
  let has_taper_relief := relief.1
  let taper_relief_rate := relief.2.1
  let relief_description := relief.2.2
  let acquisition_gain_after_relief := acquisition_gain * (1 - taper_relief_rate)
  let effective_social_rate :=
    if input_data.regime = .MACRON_III ∧ acquisition_gain > MACRON_III_THRESHOLD
    then (0.097 : ℚ)
    else SOCIAL_SECURITY_RATES input_data.regime
  let acquisition_social_security := acquisition_gain_after_relief * effective_social_rate
  let acquisition_income_tax :=
    match input_data.use_progressive_tax, input_data.annual_income with
    | true, some income =>
        calculate_tax_on_additional_income income acquisition_gain_after_relief
    | _, _ => acquisition_gain_after_relief * input_data.tax_rate
  let capital_gain_tax :=
    if capital_gain > 0 then capital_gain * CAPITAL_GAIN_PFU_RATE else 0
  let salariale_contribution :=
    if input_data.regime = .MACRON_III ∧ acquisition_gain > MACRON_III_THRESHOLD
    then acquisition_gain * MACRON_III_SALARIALE_CONTRIBUTION
    else 0
  let total_taxes := acquisition_social_security + acquisition_income_tax
    + capital_gain_tax + salariale_contribution
  let net_in_pocket := gross_proceed - total_taxes
  let effective_tax_rate :=
    if gross_proceed > 0 then total_taxes / gross_proceed * 100 else 0
  { input := input_data
    years_held := years_held
    has_taper_relief := has_taper_relief
    taper_relief_rate := taper_relief_rate
    relief_description := relief_description
    vesting_value_eur := vesting_value_eur
    current_value_eur := current_value_eur
    gross_proceed := gross_proceed
    acquisition_gain := acquisition_gain
    acquisition_gain_after_relief := acquisition_gain_after_relief
    capital_gain := capital_gain
    effective_social_rate := effective_social_rate
    acquisition_social_security := acquisition_social_security
    acquisition_income_tax := acquisition_income_tax
    capital_gain_tax := capital_gain_tax
    salariale_contribution := salariale_contribution
    total_taxes := total_taxes
    net_in_pocket := net_in_pocket
    effective_tax_rate := effective_tax_rate }

/-- Reference definition following the words of the spec, for comparison
with calculate_progressive_income_tax: the sum over the five 2025 tiers of
max(0, min(income, next lower bound) - this lower bound) times this rate,
the last tier unbounded above. -/
def referenceProgressiveTax (x : ℚ) : ℚ :=
  max 0 (min x 11497 - 0) * 0.00
    + max 0 (min x 29315 - 11497) * 0.11
    + max 0 (min x 83823 - 29315) * 0.30
    + max 0 (min x 180294 - 83823) * 0.41
    + max 0 (x - 180294) * 0.45

/-- Reference definition following the words of the spec, for comparison
with get_marginal_tax_rate: the rate of the highest 2025 bracket whose
lower bound is strictly less than the income, and 0 when no positive
income is above any bound. -/
def referenceMarginalRate (x : ℚ) : ℚ :=
  if 180294 < x then 0.45
  else if 83823 < x then 0.41
  else if 29315 < x then 0.30
  else if 11497 < x then 0.11
  else 0

/-- Closed form of the bracket walk of calculate_progressive_income_tax. -/
theorem progressive_tax_closed_form (x : ℚ) :
    calculate_progressive_income_tax x =
      if x ≤ 11497 then 0
      else if x ≤ 29315 then 0.11 * (x - 11497)
      else if x ≤ 83823 then 0.11 * 17818 + 0.30 * (x - 29315)
      else if x ≤ 180294 then
        0.11 * 17818 + 0.30 * 54508 + 0.41 * (x - 83823)
      else
        0.11 * 17818 + 0.30 * 54508 + 0.41 * 96471 + 0.45 * (x - 180294) := by
  simp only [calculate_progressive_income_tax, FRENCH_TAX_BRACKETS_2025,
    progressive_tax_loop, min_def]
  split_ifs <;> linarith

/-- Closed form of the fold of get_marginal_tax_rate. -/
theorem marginal_rate_closed_form (x : ℚ) :
    get_marginal_tax_rate x = referenceMarginalRate x := by
  simp only [get_marginal_tax_rate, FRENCH_TAX_BRACKETS_2025, List.foldl,
    referenceMarginalRate, gt_iff_lt]
  split_ifs <;> first | rfl | linarith

/-- The marginal-rate closed form written with the same region tests as
the progressive-tax closed form. -/
theorem marginal_rate_closed_le (x : ℚ) :
    get_marginal_tax_rate x =
      if x ≤ 11497 then 0
      else if x ≤ 29315 then 0.11
      else if x ≤ 83823 then 0.30
      else if x ≤ 180294 then 0.41
      else 0.45 := by
  rw [marginal_rate_closed_form, referenceMarginalRate]
  split_ifs <;> first | rfl | linarith

/-- The progressive tax is monotone non-decreasing. -/
theorem progressive_tax_mono {x y : ℚ} (h : x ≤ y) :
    calculate_progressive_income_tax x ≤ calculate_progressive_income_tax y := by
  rw [progressive_tax_closed_form, progressive_tax_closed_form]
  split_ifs <;> linarith

/-- Upper Lipschitz bound: the tax added between x and y is at most the
gap times the marginal rate at y. -/
theorem progressive_tax_le_marginal {x y : ℚ} (h : x ≤ y) :
    calculate_progressive_income_tax y - calculate_progressive_income_tax x
      ≤ (y - x) * get_marginal_tax_rate y := by
  rw [progressive_tax_closed_form, progressive_tax_closed_form,
    marginal_rate_closed_le]
  split_ifs <;> linarith

/-- The reference integration has the same closed form as the source
algorithm. -/
theorem reference_tax_closed_form (x : ℚ) :
    referenceProgressiveTax x =
      if x ≤ 11497 then 0
      else if x ≤ 29315 then 0.11 * (x - 11497)
      else if x ≤ 83823 then 0.11 * 17818 + 0.30 * (x - 29315)
      else if x ≤ 180294 then
        0.11 * 17818 + 0.30 * 54508 + 0.41 * (x - 83823)
      else
        0.11 * 17818 + 0.30 * 54508 + 0.41 * 96471 + 0.45 * (x - 180294) := by
  unfold referenceProgressiveTax
  rcases le_or_lt x 11497 with h1 | h1
  · have m1 : min x (11497:ℚ) = x := min_eq_left h1
    have m2 : min x (29315:ℚ) = x := min_eq_left (by linarith)
    have m3 : min x (83823:ℚ) = x := min_eq_left (by linarith)
    have m4 : min x (180294:ℚ) = x := min_eq_left (by linarith)
    have a2 : max 0 (x - (11497:ℚ)) = 0 := max_eq_left (by linarith)
    have a3 : max 0 (x - (29315:ℚ)) = 0 := max_eq_left (by linarith)
    have a4 : max 0 (x - (83823:ℚ)) = 0 := max_eq_left (by linarith)
    have a5 : max 0 (x - (180294:ℚ)) = 0 := max_eq_left (by linarith)
    rw [if_pos h1, m1, m2, m3, m4, a2, a3, a4, a5]
    ring
  rcases le_or_lt x 29315 with h2 | h2
  · have m1 : min x (11497:ℚ) = 11497 := min_eq_right h1.le
    have m2 : min x (29315:ℚ) = x := min_eq_left h2
    have m3 : min x (83823:ℚ) = x := min_eq_left (by linarith)
    have m4 : min x (180294:ℚ) = x := min_eq_left (by linarith)
    have a1 : max 0 ((11497:ℚ) - 0) = 11497 - 0 := max_eq_right (by norm_num)
    have a2 : max 0 (x - (11497:ℚ)) = x - 11497 := max_eq_right (by linarith)
    have a3 : max 0 (x - (29315:ℚ)) = 0 := max_eq_left (by linarith)
    have a4 : max 0 (x - (83823:ℚ)) = 0 := max_eq_left (by linarith)
    have a5 : max 0 (x - (180294:ℚ)) = 0 := max_eq_left (by linarith)
    rw [if_neg (not_le.mpr h1), if_pos h2, m1, m2, m3, m4, a1, a2, a3, a4, a5]
    ring
  rcases le_or_lt x 83823 with h3 | h3
  · have m1 : min x (11497:ℚ) = 11497 := min_eq_right (by linarith)
    have m2 : min x (29315:ℚ) = 29315 := min_eq_right h2.le
    have m3 : min x (83823:ℚ) = x := min_eq_left h3
    have m4 : min x (180294:ℚ) = x := min_eq_left (by linarith)
    have a1 : max 0 ((11497:ℚ) - 0) = 11497 - 0 := max_eq_right (by norm_num)
    have a2 : max 0 ((29315:ℚ) - 11497) = 29315 - 11497 := max_eq_right (by norm_num)
    have a3 : max 0 (x - (29315:ℚ)) = x - 29315 := max_eq_right (by linarith)
    have a4 : max 0 (x - (83823:ℚ)) = 0 := max_eq_left (by linarith)
    have a5 : max 0 (x - (180294:ℚ)) = 0 := max_eq_left (by linarith)
    rw [if_neg (not_le.mpr h1), if_neg (not_le.mpr h2), if_pos h3,
      m1, m2, m3, m4, a1, a2, a3, a4, a5]
    ring
  rcases le_or_lt x 180294 with h4 | h4
  · have m1 : min x (11497:ℚ) = 11497 := min_eq_right (by linarith)
    have m2 : min x (29315:ℚ) = 29315 := min_eq_right (by linarith)
    have m3 : min x (83823:ℚ) = 83823 := min_eq_right h3.le
    have m4 : min x (180294:ℚ) = x := min_eq_left h4
    have a1 : max 0 ((11497:ℚ) - 0) = 11497 - 0 := max_eq_right (by norm_num)
    have a2 : max 0 ((29315:ℚ) - 11497) = 29315 - 11497 := max_eq_right (by norm_num)
    have a3 : max 0 ((83823:ℚ) - 29315) = 83823 - 29315 := max_eq_right (by norm_num)
    have a4 : max 0 (x - (83823:ℚ)) = x - 83823 := max_eq_right (by linarith)
    have a5 : max 0 (x - (180294:ℚ)) = 0 := max_eq_left (by linarith)
    rw [if_neg (not_le.mpr h1), if_neg (not_le.mpr h2), if_neg (not_le.mpr h3),
      if_pos h4, m1, m2, m3, m4, a1, a2, a3, a4, a5]
    ring
  · have m1 : min x (11497:ℚ) = 11497 := min_eq_right (by linarith)
    have m2 : min x (29315:ℚ) = 29315 := min_eq_right (by linarith)
    have m3 : min x (83823:ℚ) = 83823 := min_eq_right (by linarith)
    have m4 : min x (180294:ℚ) = 180294 := min_eq_right h4.le
    have a1 : max 0 ((11497:ℚ) - 0) = 11497 - 0 := max_eq_right (by norm_num)
    have a2 : max 0 ((29315:ℚ) - 11497) = 29315 - 11497 := max_eq_right (by norm_num)
    have a3 : max 0 ((83823:ℚ) - 29315) = 83823 - 29315 := max_eq_right (by norm_num)
    have a4 : max 0 ((180294:ℚ) - 83823) = 180294 - 83823 := max_eq_right (by norm_num)
    have a5 : max 0 (x - (180294:ℚ)) = x - 180294 := max_eq_right (by linarith)
    rw [if_neg (not_le.mpr h1), if_neg (not_le.mpr h2), if_neg (not_le.mpr h3),
      if_neg (not_le.mpr h4), m1, m2, m3, m4, a1, a2, a3, a4, a5]
    ring

/-- C2: for every taxable income, calculate_progressive_income_tax equals
the reference bracket-by-bracket integration over the five-tier 2025
table, and every non-positive income is taxed exactly 0. -/
theorem claim_C2_progressive_tax_matches_reference (x : ℚ) :
    calculate_progressive_income_tax x = referenceProgressiveTax x ∧
    (x ≤ 0 → calculate_progressive_income_tax x = 0) := by
  constructor
  · rw [progressive_tax_closed_form, reference_tax_closed_form]
  · intro h
    rw [progressive_tax_closed_form]
    split_ifs <;> linarith

/-- Witness for C2 at the concrete income -5. -/
theorem claim_C2_witness :
    calculate_progressive_income_tax (-5) = referenceProgressiveTax (-5) ∧
    calculate_progressive_income_tax (-5) = 0 :=
  ⟨(claim_C2_progressive_tax_matches_reference (-5)).1,
   (claim_C2_progressive_tax_matches_reference (-5)).2 (by norm_num)⟩

/-- C6: get_marginal_tax_rate returns the rate of the highest 2025
bracket whose lower bound is strictly below the income (so an income
exactly at a lower bound keeps the previous rate), and every non-positive
income gets rate 0. -/
theorem claim_C6_marginal_rate_lookup (x : ℚ) :
    get_marginal_tax_rate x = referenceMarginalRate x ∧
    (x ≤ 0 → get_marginal_tax_rate x = 0) := by
  refine ⟨marginal_rate_closed_form x, fun h => ?_⟩
  rw [marginal_rate_closed_form, referenceMarginalRate]
  split_ifs <;> linarith

/-- Witness for C6: the boundary incomes 11497 and 29315 keep the
previous rates, and a non-positive income has rate 0. -/
theorem claim_C6_witness :
    get_marginal_tax_rate 11497 = 0 ∧ get_marginal_tax_rate 29315 = 0.11 ∧
    get_marginal_tax_rate (-3) = 0 :=
  ⟨((claim_C6_marginal_rate_lookup 11497).1).trans (by norm_num [referenceMarginalRate]),
   ((claim_C6_marginal_rate_lookup 29315).1).trans (by norm_num [referenceMarginalRate]),
   (claim_C6_marginal_rate_lookup (-3)).2 (by norm_num)⟩

/-- C3: under Macron I the taper relief is (false, 0) below 2 years,
(true, 0.50) from 2 inclusive to 8 exclusive, (true, 0.65) from 8
inclusive, and never depends on the acquisition gain. -/
theorem claim_C3_macron_i_taper_boundaries (years g g' : ℚ) :
    calculate_taper_relief years .MACRON_I g
        = calculate_taper_relief years .MACRON_I g' ∧
    (years < 2 → calculate_taper_relief years .MACRON_I g = (false, 0)) ∧
    (2 ≤ years → years < 8 →
      calculate_taper_relief years .MACRON_I g = (true, 0.50)) ∧
    (8 ≤ years → calculate_taper_relief years .MACRON_I g = (true, 0.65)) := by
  refine ⟨rfl, fun h => ?_, fun h1 h2 => ?_, fun h => ?_⟩ <;>
    · show calculate_taper_relief_macron_i years = _
      unfold calculate_taper_relief_macron_i
      split_ifs <;> first | rfl | linarith | norm_num

/-- Witness for C3 at holding periods 1, 2 and 8 years. -/
theorem claim_C3_witness :
    calculate_taper_relief 1 .MACRON_I 5 = (false, 0) ∧
    calculate_taper_relief 2 .MACRON_I 5 = (true, 0.50) ∧
    calculate_taper_relief 8 .MACRON_I 5 = (true, 0.65) :=
  ⟨(claim_C3_macron_i_taper_boundaries 1 5 5).2.1 (by norm_num),
   (claim_C3_macron_i_taper_boundaries 2 5 5).2.2.1 (by norm_num) (by norm_num),
   (claim_C3_macron_i_taper_boundaries 8 5 5).2.2.2 (by norm_num)⟩

/-- C4: under Macron III a gain of at most 300000 gets relief
(true, 0.50), the 17.2 percent social rate and no salariale
contribution; a gain strictly above 300000 gets no relief, the 9.7
percent social rate and a salariale contribution of 10 percent of the
pre-relief gain; the other regimes never pay a salariale contribution. -/
theorem claim_C4_macron_iii_threshold (g gar years : ℚ) :
    (g ≤ 300000 →
      calculate_taper_relief years .MACRON_III g = (true, 0.50) ∧
      calculate_acquisition_social_security gar .MACRON_III g = gar * 0.172 ∧
      calculate_salariale_contribution g .MACRON_III = 0) ∧
    (300000 < g →
      calculate_taper_relief years .MACRON_III g = (false, 0) ∧
      calculate_acquisition_social_security gar .MACRON_III g = gar * 0.097 ∧
      calculate_salariale_contribution g .MACRON_III = g * 0.10) ∧
    calculate_salariale_contribution g .MACRON_I = 0 ∧
    calculate_salariale_contribution g .UNRESTRICTED = 0 := by
  refine ⟨fun h => ⟨?_, ?_, ?_⟩, fun h => ⟨?_, ?_, ?_⟩, ?_, ?_⟩
  · simp [calculate_taper_relief, calculate_taper_relief_macron_iii,
      MACRON_III_THRESHOLD, h]
  · simp [calculate_acquisition_social_security, MACRON_III_THRESHOLD,
      SOCIAL_SECURITY_RATES, not_lt.2 h]
  · simp [calculate_salariale_contribution, MACRON_III_THRESHOLD, not_lt.2 h]
  · simp [calculate_taper_relief, calculate_taper_relief_macron_iii,
      MACRON_III_THRESHOLD, not_le.2 h]
    norm_num
  · simp [calculate_acquisition_social_security, MACRON_III_THRESHOLD,
      MACRON_III_OVER_THRESHOLD_SOCIAL_RATE, h]
  · simp [calculate_salariale_contribution, MACRON_III_THRESHOLD,
      MACRON_III_SALARIALE_CONTRIBUTION, h]
  · simp [calculate_salariale_contribution]
  · simp [calculate_salariale_contribution]

/-- Witness for C4 at gains 100 (under) and 400000 (over). -/
theorem claim_C4_witness :
    (calculate_taper_relief 1 .MACRON_III 100 = (true, 0.50) ∧
      calculate_acquisition_social_security 7 .MACRON_III 100 = 7 * 0.172 ∧
      calculate_salariale_contribution 100 .MACRON_III = 0) ∧
    (calculate_taper_relief 1 .MACRON_III 400000 = (false, 0) ∧
      calculate_acquisition_social_security 7 .MACRON_III 400000 = 7 * 0.097 ∧
      calculate_salariale_contribution 400000 .MACRON_III = 400000 * 0.10) :=
  ⟨(claim_C4_macron_iii_threshold 100 7 1).1 (by norm_num),
   (claim_C4_macron_iii_threshold 400000 7 1).2.1 (by norm_num)⟩

/-- C5: the pipeline computes the capital gain from the pre-relief
acquisition gain, taxes it at max(gain, 0) times 30 percent, and in
particular a non-positive capital gain is taxed 0. -/
theorem claim_C5_capital_gain_pfu (input : RSUInput) :
    (calculate_rsu_taxes input).capital_gain
      = (calculate_rsu_taxes input).gross_proceed
        - (calculate_rsu_taxes input).acquisition_gain ∧
    (calculate_rsu_taxes input).capital_gain_tax
      = max (calculate_rsu_taxes input).capital_gain 0 * 0.30 ∧
    ((calculate_rsu_taxes input).capital_gain ≤ 0 →
      (calculate_rsu_taxes input).capital_gain_tax = 0) := by
  have e : (calculate_rsu_taxes input).capital_gain_tax
      = calculate_capital_gain_tax ((calculate_rsu_taxes input).capital_gain) := rfl
  refine ⟨rfl, ?_, fun h => ?_⟩
  · rw [e, calculate_capital_gain_tax, CAPITAL_GAIN_PFU_RATE]
    rcases le_or_lt ((calculate_rsu_taxes input).capital_gain) 0 with h | h
    · rw [if_neg (not_lt.2 h), max_eq_right h, zero_mul]
    · rw [if_pos h, max_eq_left h.le]
  · rw [e, calculate_capital_gain_tax, if_neg (not_lt.2 h)]

/-- Witness for C5: a concrete losing sale (shares worth 2 at vesting
sold at 1) pays no capital-gain tax. -/
theorem claim_C5_witness :
    (calculate_rsu_taxes
      ⟨⟨2024, 1, 1⟩, ⟨2024, 1, 1⟩, 1, 2, 1, 1, .MACRON_I, none, none⟩).capital_gain_tax
      = 0 :=
  (claim_C5_capital_gain_pfu
      ⟨⟨2024, 1, 1⟩, ⟨2024, 1, 1⟩, 1, 2, 1, 1, .MACRON_I, none, none⟩).2.2
    (by norm_num [calculate_rsu_taxes, calculate_capital_gain,
      calculate_gross_proceed, calculate_acquisition_gain, convert_usd_to_eur])

/-- C8: total taxes are the sum of the four components, net in pocket is
gross proceeds minus total taxes, and the effective tax rate is the
percentage when gross proceeds are positive and exactly 0 otherwise. -/
theorem claim_C8_aggregation_and_effective_rate (input : RSUInput) :
    (calculate_rsu_taxes input).total_taxes
      = (calculate_rsu_taxes input).acquisition_social_security
        + (calculate_rsu_taxes input).acquisition_income_tax
        + (calculate_rsu_taxes input).capital_gain_tax
        + (calculate_rsu_taxes input).salariale_contribution ∧
    (calculate_rsu_taxes input).net_in_pocket
      = (calculate_rsu_taxes input).gross_proceed
        - (calculate_rsu_taxes input).total_taxes ∧
    (0 < (calculate_rsu_taxes input).gross_proceed →
      (calculate_rsu_taxes input).effective_tax_rate
        = (calculate_rsu_taxes input).total_taxes
            / (calculate_rsu_taxes input).gross_proceed * 100) ∧
    ((calculate_rsu_taxes input).gross_proceed ≤ 0 →
      (calculate_rsu_taxes input).effective_tax_rate = 0) := by
  have e : (calculate_rsu_taxes input).effective_tax_rate
      = calculate_effective_tax_rate (calculate_rsu_taxes input).total_taxes
          (calculate_rsu_taxes input).gross_proceed := rfl
  refine ⟨rfl, rfl, fun h => ?_, fun h => ?_⟩
  · rw [e, calculate_effective_tax_rate, if_neg (not_le.2 h)]
  · rw [e, calculate_effective_tax_rate, if_pos h]

/-- Witness for C8: positive proceeds give the percentage and zero
proceeds give rate exactly 0, at two concrete inputs. -/
theorem claim_C8_witness :
    (calculate_rsu_taxes
        ⟨⟨2024, 1, 1⟩, ⟨2024, 1, 1⟩, 1, 1, 1, 1, .MACRON_I, none, none⟩).effective_tax_rate
      = (calculate_rsu_taxes
          ⟨⟨2024, 1, 1⟩, ⟨2024, 1, 1⟩, 1, 1, 1, 1, .MACRON_I, none, none⟩).total_taxes
          / (calculate_rsu_taxes
              ⟨⟨2024, 1, 1⟩, ⟨2024, 1, 1⟩, 1, 1, 1, 1, .MACRON_I, none, none⟩).gross_proceed
          * 100 ∧
    (calculate_rsu_taxes
        ⟨⟨2024, 1, 1⟩, ⟨2024, 1, 1⟩, 1, 1, 0, 1, .MACRON_I, none, none⟩).effective_tax_rate
      = 0 :=
  ⟨(claim_C8_aggregation_and_effective_rate
      ⟨⟨2024, 1, 1⟩, ⟨2024, 1, 1⟩, 1, 1, 1, 1, .MACRON_I, none, none⟩).2.2.1
    (by norm_num [calculate_rsu_taxes, calculate_gross_proceed, convert_usd_to_eur]),
   (claim_C8_aggregation_and_effective_rate
      ⟨⟨2024, 1, 1⟩, ⟨2024, 1, 1⟩, 1, 1, 0, 1, .MACRON_I, none, none⟩).2.2.2
    (by norm_num [calculate_rsu_taxes, calculate_gross_proceed, convert_usd_to_eur])⟩

/-- At each positive bracket lower bound the marginal rate strictly
increases: the rate at the bound itself is strictly below the rate at any
income above the bound. -/
theorem marginal_rate_jump {t y : ℚ}
    (ht : t = 11497 ∨ t = 29315 ∨ t = 83823 ∨ t = 180294) (hy : t < y) :
    get_marginal_tax_rate t < get_marginal_tax_rate y := by
  rw [marginal_rate_closed_le, marginal_rate_closed_le]
  rcases ht with rfl | rfl | rfl | rfl <;> norm_num <;> split_ifs <;> linarith

/-- C1 as stated is false: with base income exactly at the 11497 lower
bound and increment 1, the increment spans a bracket bound that the base
does not exceed, yet the incremental tax (0.11) is not strictly below
increment times the marginal rate at the top (also 0.11). -/
theorem claim_C1_counterexample :
    (0:ℚ) < 1 ∧
    (∃ p ∈ FRENCH_TAX_BRACKETS_2025, (11497:ℚ) ≤ p.1 ∧ p.1 < 11497 + 1) ∧
    ¬ (calculate_tax_on_additional_income 11497 1
        < 1 * get_marginal_tax_rate (11497 + 1)) := by
  refine ⟨by norm_num, ⟨(11497, 0.11), by simp [FRENCH_TAX_BRACKETS_2025],
    by norm_num, by norm_num⟩, ?_⟩
  have h1 : calculate_tax_on_additional_income 11497 1 = 0.11 := by
    unfold calculate_tax_on_additional_income
    rw [progressive_tax_closed_form, progressive_tax_closed_form]
    norm_num
  have h2 : get_marginal_tax_rate (11497 + 1) = 0.11 := by
    rw [marginal_rate_closed_le]
    norm_num
  rw [h1, h2]
  norm_num

/-- C1 amended: for every base income and positive increment such that
some positive bracket lower bound lies strictly between the base income
and base income plus increment, the tax on the additional income is
strictly less than the increment times the marginal rate at the top. -/
theorem claim_C1_amended_progressive_below_marginal (base inc : ℚ)
    (hinc : 0 < inc)
    (h : ∃ p ∈ FRENCH_TAX_BRACKETS_2025,
        0 < p.1 ∧ base < p.1 ∧ p.1 < base + inc) :
    calculate_tax_on_additional_income base inc
      < inc * get_marginal_tax_rate (base + inc) := by
  obtain ⟨p, hp, hpos, hlt1, hlt2⟩ := h
  unfold calculate_tax_on_additional_income
  simp only [FRENCH_TAX_BRACKETS_2025, List.mem_cons,
    List.not_mem_nil, or_false] at hp
  have main : ∀ t : ℚ, (t = 11497 ∨ t = 29315 ∨ t = 83823 ∨ t = 180294) →
      base < t → t < base + inc →
      calculate_progressive_income_tax (base + inc)
          - calculate_progressive_income_tax base
        < inc * get_marginal_tax_rate (base + inc) := by
    intro t htm h1 h2
    have A := progressive_tax_le_marginal (x := base) (y := t) h1.le
    have B := progressive_tax_le_marginal (x := t) (y := base + inc) h2.le
    have J : get_marginal_tax_rate t < get_marginal_tax_rate (base + inc) :=
      marginal_rate_jump htm h2
    have P : (t - base) * get_marginal_tax_rate t
        < (t - base) * get_marginal_tax_rate (base + inc) :=
      mul_lt_mul_of_pos_left J (by linarith)
    nlinarith [A, B, P]
  rcases hp with h0 | h0 | h0 | h0 | h0 <;> rw [h0] at hpos hlt1 hlt2
  · norm_num at hpos
  · exact main 11497 (by norm_num) hlt1 hlt2
  · exact main 29315 (by norm_num) hlt1 hlt2
  · exact main 83823 (by norm_num) hlt1 hlt2
  · exact main 180294 (by norm_num) hlt1 hlt2

/-- Witness for the amended C1: base 25000, increment 10000 spans the
29315 bound and is taxed strictly below the flat marginal figure. -/
theorem claim_C1_amended_witness :
    calculate_tax_on_additional_income 25000 10000
      < 10000 * get_marginal_tax_rate (25000 + 10000) :=
  claim_C1_amended_progressive_below_marginal 25000 10000 (by norm_num)
    ⟨(29315, 0.30), by simp [FRENCH_TAX_BRACKETS_2025], by norm_num,
      by norm_num, by norm_num⟩

/-- The social-security rate table is non-negative for every regime. -/
theorem social_rates_nonneg (regime : TaxRegime) :
    0 ≤ SOCIAL_SECURITY_RATES regime := by
  cases regime <;> norm_num [SOCIAL_SECURITY_RATES]

/-- The taper-relief rate always lies between 0 and 1. -/
theorem taper_relief_rate_bounds (years : ℚ) (regime : TaxRegime) (g : ℚ) :
    0 ≤ (calculate_taper_relief years regime g).2 ∧
      (calculate_taper_relief years regime g).2 ≤ 1 := by
  cases regime <;>
    simp only [calculate_taper_relief, calculate_taper_relief_macron_i,
      calculate_taper_relief_macron_iii] <;>
    split_ifs <;> norm_num

/-- Social security on a non-negative post-relief gain is non-negative. -/
theorem social_security_nonneg (gar : ℚ) (regime : TaxRegime) (g : ℚ)
    (h : 0 ≤ gar) :
    0 ≤ calculate_acquisition_social_security gar regime g := by
  unfold calculate_acquisition_social_security
  split_ifs
  · exact mul_nonneg h (by norm_num [MACRON_III_OVER_THRESHOLD_SOCIAL_RATE])
  · exact mul_nonneg h (social_rates_nonneg regime)

/-- Income tax on a non-negative post-relief gain is non-negative
whenever the flat fallback rate, when it is used, is non-negative. -/
theorem income_tax_nonneg (gar : ℚ) (ai tr : Option ℚ) (h : 0 ≤ gar)
    (htr : ∀ t, ai = none → tr = some t → 0 ≤ t) :
    0 ≤ calculate_acquisition_income_tax gar ai tr := by
  cases ai with
  | some income =>
    show 0 ≤ calculate_tax_on_additional_income income gar
    unfold calculate_tax_on_additional_income
    have hmono := progressive_tax_mono (le_add_of_nonneg_right h :
      income ≤ income + gar)
    linarith
  | none =>
    cases tr with
    | some t =>
      show 0 ≤ gar * t
      exact mul_nonneg h (htr t rfl rfl)
    | none =>
      show 0 ≤ gar * 0.30
      exact mul_nonneg h (by norm_num)

/-- The capital-gain tax is never negative. -/
theorem capital_gain_tax_nonneg (cg : ℚ) : 0 ≤ calculate_capital_gain_tax cg := by
  unfold calculate_capital_gain_tax CAPITAL_GAIN_PFU_RATE
  split_ifs with hpos
  · exact mul_nonneg hpos.le (by norm_num)
  · exact le_refl 0

/-- The salariale contribution is never negative. -/
theorem salariale_nonneg (g : ℚ) (regime : TaxRegime) :
    0 ≤ calculate_salariale_contribution g regime := by
  unfold calculate_salariale_contribution MACRON_III_SALARIALE_CONTRIBUTION
    MACRON_III_THRESHOLD
  split_ifs with hcond
  · exact mul_nonneg (by linarith [hcond.2]) (by norm_num)
  · exact le_refl 0

/-- C10: under the documented preconditions every tax component of the
pipeline result is non-negative, hence total taxes are non-negative and
the net in pocket never exceeds the gross proceeds. -/
theorem claim_C10_taxes_nonneg (input : RSUInput)
    (hn : 0 < input.num_shares)
    (hv : 0 ≤ input.vesting_value_usd)
    (hc : 0 ≤ input.current_value_usd)
    (hr : 0 ≤ input.usd_to_eur)
    (ht : ∀ t, input.acquisition_tax_rate = some t → 0 ≤ t ∧ t ≤ 0.45) :
    0 ≤ (calculate_rsu_taxes input).acquisition_social_security ∧
    0 ≤ (calculate_rsu_taxes input).acquisition_income_tax ∧
    0 ≤ (calculate_rsu_taxes input).capital_gain_tax ∧
    0 ≤ (calculate_rsu_taxes input).salariale_contribution ∧
    0 ≤ (calculate_rsu_taxes input).total_taxes ∧
    (calculate_rsu_taxes input).net_in_pocket
      ≤ (calculate_rsu_taxes input).gross_proceed := by
  have hg : 0 ≤ (calculate_rsu_taxes input).acquisition_gain := by
    have e : (calculate_rsu_taxes input).acquisition_gain
        = (input.num_shares : ℚ)
            * (input.vesting_value_usd * input.usd_to_eur) := rfl
    rw [e]
    have hn' : (0:ℚ) ≤ (input.num_shares : ℚ) := by exact_mod_cast hn.le
    exact mul_nonneg hn' (mul_nonneg hv hr)
  have hrate := taper_relief_rate_bounds
    (calculate_years_held input.vesting_date input.sell_date) input.regime
    ((calculate_rsu_taxes input).acquisition_gain)
  have hgar : 0 ≤ (calculate_rsu_taxes input).acquisition_gain_after_relief := by
    have e : (calculate_rsu_taxes input).acquisition_gain_after_relief
        = (calculate_rsu_taxes input).acquisition_gain
            * (1 - (calculate_taper_relief
                (calculate_years_held input.vesting_date input.sell_date)
                input.regime ((calculate_rsu_taxes input).acquisition_gain)).2) := rfl
    rw [e]
    exact mul_nonneg hg (by linarith [hrate.2])
  have hss : 0 ≤ (calculate_rsu_taxes input).acquisition_social_security := by
    have e : (calculate_rsu_taxes input).acquisition_social_security
        = calculate_acquisition_social_security
            ((calculate_rsu_taxes input).acquisition_gain_after_relief)
            input.regime ((calculate_rsu_taxes input).acquisition_gain) := rfl
    rw [e]
    exact social_security_nonneg _ _ _ hgar
  have hit : 0 ≤ (calculate_rsu_taxes input).acquisition_income_tax := by
    have e : (calculate_rsu_taxes input).acquisition_income_tax
        = calculate_acquisition_income_tax
            ((calculate_rsu_taxes input).acquisition_gain_after_relief)
            input.annual_income input.acquisition_tax_rate := rfl
    rw [e]
    exact income_tax_nonneg _ _ _ hgar (fun t _ htt => (ht t htt).1)
  have hcgt : 0 ≤ (calculate_rsu_taxes input).capital_gain_tax := by
    have e : (calculate_rsu_taxes input).capital_gain_tax
        = calculate_capital_gain_tax ((calculate_rsu_taxes input).capital_gain) :=
      rfl
    rw [e]
    exact capital_gain_tax_nonneg _
  have hsal : 0 ≤ (calculate_rsu_taxes input).salariale_contribution := by
    have e : (calculate_rsu_taxes input).salariale_contribution
        = calculate_salariale_contribution
            ((calculate_rsu_taxes input).acquisition_gain) input.regime := rfl
    rw [e]
    exact salariale_nonneg _ _
  have htot : (calculate_rsu_taxes input).total_taxes
      = (calculate_rsu_taxes input).acquisition_social_security
        + (calculate_rsu_taxes input).acquisition_income_tax
        + (calculate_rsu_taxes input).capital_gain_tax
        + (calculate_rsu_taxes input).salariale_contribution := rfl
  have hnet : (calculate_rsu_taxes input).net_in_pocket
      = (calculate_rsu_taxes input).gross_proceed
        - (calculate_rsu_taxes input).total_taxes := rfl
  refine ⟨hss, hit, hcgt, hsal, ?_, ?_⟩
  · rw [htot]; linarith
  · rw [hnet, htot]; linarith

/-- Witness for C10 at a concrete sale of 10 shares with a flat 30
percent fallback rate. -/
theorem claim_C10_witness :
    0 ≤ (calculate_rsu_taxes
        ⟨⟨2024, 2, 15⟩, ⟨2026, 2, 15⟩, 10, 100, 150, 0.92, .MACRON_I,
          none, some 0.30⟩).acquisition_social_security ∧
    0 ≤ (calculate_rsu_taxes
        ⟨⟨2024, 2, 15⟩, ⟨2026, 2, 15⟩, 10, 100, 150, 0.92, .MACRON_I,
          none, some 0.30⟩).acquisition_income_tax ∧
    0 ≤ (calculate_rsu_taxes
        ⟨⟨2024, 2, 15⟩, ⟨2026, 2, 15⟩, 10, 100, 150, 0.92, .MACRON_I,
          none, some 0.30⟩).capital_gain_tax ∧
    0 ≤ (calculate_rsu_taxes
        ⟨⟨2024, 2, 15⟩, ⟨2026, 2, 15⟩, 10, 100, 150, 0.92, .MACRON_I,
          none, some 0.30⟩).salariale_contribution ∧
    0 ≤ (calculate_rsu_taxes
        ⟨⟨2024, 2, 15⟩, ⟨2026, 2, 15⟩, 10, 100, 150, 0.92, .MACRON_I,
          none, some 0.30⟩).total_taxes ∧
    (calculate_rsu_taxes
        ⟨⟨2024, 2, 15⟩, ⟨2026, 2, 15⟩, 10, 100, 150, 0.92, .MACRON_I,
          none, some 0.30⟩).net_in_pocket
      ≤ (calculate_rsu_taxes
          ⟨⟨2024, 2, 15⟩, ⟨2026, 2, 15⟩, 10, 100, 150, 0.92, .MACRON_I,
            none, some 0.30⟩).gross_proceed :=
  claim_C10_taxes_nonneg
    ⟨⟨2024, 2, 15⟩, ⟨2026, 2, 15⟩, 10, 100, 150, 0.92, .MACRON_I, none, some 0.30⟩
    (by norm_num) (by norm_num) (by norm_num) (by norm_num)
    (by intro t h; simp only [Option.some.injEq] at h; rw [← h]; norm_num)

/-- Every month has at least one day. -/
theorem daysInMonth_pos (y m : ℤ) : 1 ≤ daysInMonth y m := by
  unfold daysInMonth; split_ifs <;> norm_num

/-- A month together with its length fits before the next month of the
same year. -/
theorem dbm_mono (y : ℤ) {m m' : ℤ} (h1 : 1 ≤ m) (h2 : m < m') (h3 : m' ≤ 12) :
    daysBeforeMonth y m + daysInMonth y m ≤ daysBeforeMonth y m' := by
  have hm11 : m ≤ 11 := by omega
  interval_cases m <;> interval_cases m' <;>
    norm_num [daysBeforeMonth, monthOffset, daysInMonth] <;> split_ifs <;> omega

/-- A month together with its length fits inside its year. -/
theorem dbm_add_dim_le (y : ℤ) {m : ℤ} (h1 : 1 ≤ m) (h3 : m ≤ 12) :
    daysBeforeMonth y m + daysInMonth y m
      ≤ 365 + (if isLeap y then 1 else 0) := by
  interval_cases m <;> norm_num [daysBeforeMonth, monthOffset, daysInMonth] <;>
    split_ifs <;> omega

/-- The day count before a month of the year is non-negative. -/
theorem dbm_nonneg (y : ℤ) {m : ℤ} (h1 : 1 ≤ m) (h3 : m ≤ 12) :
    0 ≤ daysBeforeMonth y m := by
  interval_cases m <;> norm_num [daysBeforeMonth, monthOffset] <;>
    split_ifs <;> omega

/-- One year adds 365 or 366 days to the prefix day count. -/
theorem daysBeforeYear_succ (y : ℤ) :
    daysBeforeYear (y + 1) = daysBeforeYear y + (if isLeap y then 366 else 365) := by
  unfold daysBeforeYear isLeap
  split_ifs <;> omega

/-- The prefix day count is monotone in the year. -/
theorem daysBeforeYear_mono {y y' : ℤ} (h : y ≤ y') :
    daysBeforeYear y ≤ daysBeforeYear y' := by
  unfold daysBeforeYear
  omega

/-- A valid date strictly earlier in the (year, month) lexicographic
order has a strictly smaller ordinal. -/
theorem toOrdinal_lt_of_ym {a b : PyDate} (ha : a.Valid) (hb : b.Valid)
    (h : a.year < b.year ∨ (a.year = b.year ∧ a.month < b.month)) :
    toOrdinal a < toOrdinal b := by
  obtain ⟨hay, ham1, ham2, had1, had2⟩ := ha
  obtain ⟨hby, hbm1, hbm2, hbd1, hbd2⟩ := hb
  rcases h with h | ⟨hy, hm⟩
  · have k1 := dbm_add_dim_le a.year ham1 ham2
    have k2 := daysBeforeYear_succ a.year
    have k3 : daysBeforeYear (a.year + 1) ≤ daysBeforeYear b.year :=
      daysBeforeYear_mono (by omega)
    have k4 : 0 ≤ daysBeforeMonth b.year b.month := dbm_nonneg b.year hbm1 hbm2
    unfold toOrdinal
    split_ifs at k1 k2 <;> omega
  · have k5 : daysBeforeMonth a.year a.month + daysInMonth a.year a.month
        ≤ daysBeforeMonth a.year b.month := dbm_mono a.year ham1 hm hbm2
    unfold toOrdinal
    rw [← hy] at hbd2 ⊢
    omega

/-- For valid dates the Python lexicographic comparison implies the
ordinal comparison. -/
theorem toOrdinal_lt_of_dateLt {a b : PyDate} (ha : a.Valid) (hb : b.Valid)
    (h : dateLt a b) : toOrdinal a < toOrdinal b := by
  rcases h with h | ⟨hy, h⟩
  · exact toOrdinal_lt_of_ym ha hb (Or.inl h)
  rcases h with h | ⟨hm, hd⟩
  · exact toOrdinal_lt_of_ym ha hb (Or.inr ⟨hy, h⟩)
  · unfold toOrdinal
    rw [← hy, ← hm]
    omega

/-- For valid dates the Python lexicographic comparison agrees with the
ordinal comparison. -/
theorem dateLt_iff_ord {a b : PyDate} (ha : a.Valid) (hb : b.Valid) :
    dateLt a b ↔ toOrdinal a < toOrdinal b := by
  constructor
  · exact toOrdinal_lt_of_dateLt ha hb
  · intro h
    by_contra hn
    have tri : dateLt b a ∨ (a.year = b.year ∧ a.month = b.month ∧ a.day = b.day) := by
      unfold dateLt at hn ⊢
      omega
    rcases tri with htri | ⟨h1, h2, h3⟩
    · have := toOrdinal_lt_of_dateLt hb ha htri
      omega
    · have : toOrdinal a = toOrdinal b := by
        unfold toOrdinal
        rw [h1, h2, h3]
      omega

/-- The sign-magnitude normalization of setMonths: the two components
recombine to the input, the month part stays within 11, and both
components share the sign of the input. -/
theorem setMonths_spec (n : ℤ) :
    12 * (setMonths n).1 + (setMonths n).2 = n ∧
    (setMonths n).2.natAbs ≤ 11 ∧
    (0 ≤ n → 0 ≤ (setMonths n).1 ∧ 0 ≤ (setMonths n).2) ∧
    (n ≤ 0 → (setMonths n).1 ≤ 0 ∧ (setMonths n).2 ≤ 0) := by
  unfold setMonths
  split_ifs <;> dsimp only <;> omega

/-- Landing lemma for adding a normalized month count to a valid date:
the result sits exactly n months after the source in the linear
year-month count, its month is in range, and its day is the source day
clamped to the landing month. -/
theorem raddMonths_setMonths_spec (d : PyDate) (hd : d.Valid) (n : ℤ) :
    12 * (raddMonths d (setMonths n).1 (setMonths n).2).year
        + (raddMonths d (setMonths n).1 (setMonths n).2).month
      = 12 * d.year + d.month + n ∧
    1 ≤ (raddMonths d (setMonths n).1 (setMonths n).2).month ∧
    (raddMonths d (setMonths n).1 (setMonths n).2).month ≤ 12 ∧
    (raddMonths d (setMonths n).1 (setMonths n).2).day
      = min d.day (daysInMonth (raddMonths d (setMonths n).1 (setMonths n).2).year
          (raddMonths d (setMonths n).1 (setMonths n).2).month) := by
  obtain ⟨hdy, hdm1, hdm2, hdd1, hdd2⟩ := hd
  obtain ⟨hs1, hs2, _, _⟩ := setMonths_spec n
  unfold raddMonths
  dsimp only
  split_ifs <;> refine ⟨by omega, by omega, by omega, rfl⟩

/-- The initial month difference of the relativedelta algorithm. -/
def rdMonths0 (dt1 dt2 : PyDate) : ℤ :=
  (dt1.year - dt2.year) * 12 + (dt1.month - dt2.month)

/-- The landing date before the correction step. -/
def rdLanding (dt1 dt2 : PyDate) : PyDate :=
  raddMonths dt2 (setMonths (rdMonths0 dt1 dt2)).1 (setMonths (rdMonths0 dt1 dt2)).2

/-- The month count after the correction step. -/
def rdMonths (dt1 dt2 : PyDate) : ℤ :=
  if dateLt dt1 dt2 then
    (if dateLt (rdLanding dt1 dt2) dt1 then rdMonths0 dt1 dt2 + 1
     else rdMonths0 dt1 dt2)
  else
    (if dateLt dt1 (rdLanding dt1 dt2) then rdMonths0 dt1 dt2 - 1
     else rdMonths0 dt1 dt2)

/-- The landing date after the correction step. -/
def rdFinal (dt1 dt2 : PyDate) : PyDate :=
  raddMonths dt2 (setMonths (rdMonths dt1 dt2)).1 (setMonths (rdMonths dt1 dt2)).2

/-- The staged helpers compute exactly relativedelta_dates. -/
theorem relativedelta_dates_eq (dt1 dt2 : PyDate) :
    relativedelta_dates dt1 dt2 =
      ((setMonths (rdMonths dt1 dt2)).1, (setMonths (rdMonths dt1 dt2)).2,
        toOrdinal dt1 - toOrdinal (rdFinal dt1 dt2)) := rfl

/-- Adding a zero relativedelta to a valid date gives the date back. -/
theorem raddMonths_zero (d : PyDate) (hd : d.Valid) : raddMonths d 0 0 = d := by
  obtain ⟨h1, h2, h3, h4, h5⟩ := hd
  cases d with
  | mk y m dd =>
    unfold raddMonths
    dsimp only
    rw [if_neg (by dsimp only at h3 ⊢; omega), if_neg (by dsimp only at h2 ⊢; omega)]
    dsimp only at h5 ⊢
    rw [add_zero, add_zero]
    rw [min_eq_left h5]

/-- The relativedelta of a valid date with itself is zero. -/
theorem relativedelta_self (d : PyDate) (hd : d.Valid) :
    relativedelta_dates d d = (0, 0, 0) := by
  have hz : rdMonths0 d d = 0 := by unfold rdMonths0; ring
  have hL : rdLanding d d = d := by
    unfold rdLanding
    rw [hz]
    show raddMonths d 0 0 = d
    exact raddMonths_zero d hd
  have hirr : ¬ dateLt d d := by unfold dateLt; omega
  have hm : rdMonths d d = 0 := by
    unfold rdMonths
    rw [if_neg hirr, hL, if_neg hirr, hz]
  have hF : rdFinal d d = d := by
    unfold rdFinal
    rw [hm]
    show raddMonths d 0 0 = d
    exact raddMonths_zero d hd
  rw [relativedelta_dates_eq, hm, hF]
  show ((0:ℤ), (0:ℤ), toOrdinal d - toOrdinal d) = (0, 0, 0)
  norm_num

/-- When dt1 strictly precedes dt2, the relativedelta month count is
non-positive, the day remainder is non-positive, and the day remainder
is strictly negative whenever the month count vanishes. -/
theorem relativedelta_neg {dt1 dt2 : PyDate} (h1 : dt1.Valid) (h2 : dt2.Valid)
    (hlt : dateLt dt1 dt2) :
    rdMonths dt1 dt2 ≤ 0 ∧
    toOrdinal dt1 - toOrdinal (rdFinal dt1 dt2) ≤ 0 ∧
    (rdMonths dt1 dt2 = 0 →
      toOrdinal dt1 - toOrdinal (rdFinal dt1 dt2) < 0) := by
  have hord : toOrdinal dt1 < toOrdinal dt2 := toOrdinal_lt_of_dateLt h1 h2 hlt
  have e0 := h1.1
  have e1 := h1.2.1
  have e2 := h1.2.2.1
  have e0' := h2.1
  have e3 := h2.2.1
  have e4 := h2.2.2.1
  -- facts about the initial landing, restated on rdLanding
  have hp0 : 12 * (rdLanding dt1 dt2).year + (rdLanding dt1 dt2).month
      = 12 * dt2.year + dt2.month + rdMonths0 dt1 dt2 :=
    (raddMonths_setMonths_spec dt2 h2 (rdMonths0 dt1 dt2)).1
  have hb0a : 1 ≤ (rdLanding dt1 dt2).month :=
    (raddMonths_setMonths_spec dt2 h2 (rdMonths0 dt1 dt2)).2.1
  have hb0b : (rdLanding dt1 dt2).month ≤ 12 :=
    (raddMonths_setMonths_spec dt2 h2 (rdMonths0 dt1 dt2)).2.2.1
  have hday0 : (rdLanding dt1 dt2).day
      = min dt2.day (daysInMonth (rdLanding dt1 dt2).year (rdLanding dt1 dt2).month) :=
    (raddMonths_setMonths_spec dt2 h2 (rdMonths0 dt1 dt2)).2.2.2
  have hL0pos : 12 * (rdLanding dt1 dt2).year + (rdLanding dt1 dt2).month
      = 12 * dt1.year + dt1.month := by
    unfold rdMonths0 at hp0; omega
  have hL0y : (rdLanding dt1 dt2).year = dt1.year := by omega
  have hL0m : (rdLanding dt1 dt2).month = dt1.month := by omega
  have hL0valid : (rdLanding dt1 dt2).Valid := by
    refine ⟨by rw [hL0y]; exact h1.1, hb0a, hb0b, ?_, ?_⟩
    · rw [hday0]; exact le_min h2.2.2.2.1 (daysInMonth_pos _ _)
    · rw [hday0]; exact min_le_right _ _
  have hn0_le : rdMonths0 dt1 dt2 ≤ 0 := by
    by_contra hpos
    push_neg at hpos
    have hymlt : dt2.year < dt1.year ∨
        (dt2.year = dt1.year ∧ dt2.month < dt1.month) := by
      unfold rdMonths0 at hpos
      omega
    have := toOrdinal_lt_of_ym h2 h1 hymlt
    omega
  have hL0_dt2 : rdMonths0 dt1 dt2 = 0 →
      toOrdinal (rdLanding dt1 dt2) = toOrdinal dt2 := by
    intro h0
    have hyy : dt1.year = dt2.year ∧ dt1.month = dt2.month := by
      unfold rdMonths0 at h0
      omega
    have hday : (rdLanding dt1 dt2).day = dt2.day := by
      rw [hday0, hL0y, hL0m, hyy.1, hyy.2]
      exact min_eq_left h2.2.2.2.2
    unfold toOrdinal
    rw [hL0y, hL0m, hyy.1, hyy.2, hday]
  by_cases hov : dateLt (rdLanding dt1 dt2) dt1
  · -- the landing overshoots below dt1: the loop adds one month
    have hm_val : rdMonths dt1 dt2 = rdMonths0 dt1 dt2 + 1 := by
      unfold rdMonths
      rw [if_pos hlt, if_pos hov]
    have hovord : toOrdinal (rdLanding dt1 dt2) < toOrdinal dt1 :=
      toOrdinal_lt_of_dateLt hL0valid h1 hov
    have hn0_ne : rdMonths0 dt1 dt2 ≠ 0 := by
      intro h0
      have := hL0_dt2 h0
      omega
    have hF_val : rdFinal dt1 dt2
        = raddMonths dt2 (setMonths (rdMonths0 dt1 dt2 + 1)).1
            (setMonths (rdMonths0 dt1 dt2 + 1)).2 := by
      unfold rdFinal
      rw [hm_val]
    have hp1 := (raddMonths_setMonths_spec dt2 h2 (rdMonths0 dt1 dt2 + 1)).1
    have hb1a := (raddMonths_setMonths_spec dt2 h2 (rdMonths0 dt1 dt2 + 1)).2.1
    have hb1b := (raddMonths_setMonths_spec dt2 h2 (rdMonths0 dt1 dt2 + 1)).2.2.1
    have hday1 := (raddMonths_setMonths_spec dt2 h2 (rdMonths0 dt1 dt2 + 1)).2.2.2
    rw [hF_val]
    rw [hm_val]
    have hL1pos : 12 * (raddMonths dt2 (setMonths (rdMonths0 dt1 dt2 + 1)).1
          (setMonths (rdMonths0 dt1 dt2 + 1)).2).year
        + (raddMonths dt2 (setMonths (rdMonths0 dt1 dt2 + 1)).1
            (setMonths (rdMonths0 dt1 dt2 + 1)).2).month
        = 12 * dt1.year + dt1.month + 1 := by
      have hrm : rdMonths0 dt1 dt2
          = (dt1.year - dt2.year) * 12 + (dt1.month - dt2.month) := rfl
      omega
    have hL1valid : (raddMonths dt2 (setMonths (rdMonths0 dt1 dt2 + 1)).1
        (setMonths (rdMonths0 dt1 dt2 + 1)).2).Valid := by
      refine ⟨by omega, hb1a, hb1b, ?_, ?_⟩
      · rw [hday1]; exact le_min h2.2.2.2.1 (daysInMonth_pos _ _)
      · rw [hday1]; exact min_le_right _ _
    have hlex : dt1.year < (raddMonths dt2 (setMonths (rdMonths0 dt1 dt2 + 1)).1
          (setMonths (rdMonths0 dt1 dt2 + 1)).2).year ∨
        (dt1.year = (raddMonths dt2 (setMonths (rdMonths0 dt1 dt2 + 1)).1
            (setMonths (rdMonths0 dt1 dt2 + 1)).2).year ∧
          dt1.month < (raddMonths dt2 (setMonths (rdMonths0 dt1 dt2 + 1)).1
              (setMonths (rdMonths0 dt1 dt2 + 1)).2).month) := by
      omega
    have hstrict := toOrdinal_lt_of_ym h1 hL1valid hlex
    exact ⟨by omega, by omega, fun _ => by omega⟩
  · -- no overshoot: the month count stays
    have hm_val : rdMonths dt1 dt2 = rdMonths0 dt1 dt2 := by
      unfold rdMonths
      rw [if_pos hlt, if_neg hov]
    have hF_val : rdFinal dt1 dt2 = rdLanding dt1 dt2 := by
      unfold rdFinal rdLanding
      rw [hm_val]
    have hov' : ¬ toOrdinal (rdLanding dt1 dt2) < toOrdinal dt1 := by
      rw [← dateLt_iff_ord hL0valid h1]
      exact hov
    rw [hF_val, hm_val]
    exact ⟨hn0_le, by omega, fun h0 => by have := hL0_dt2 h0; omega⟩

/-- C7: calculate_years_held combines the calendar-aware relativedelta
decomposition as years + months/12 + days/365; equal dates give 0; and a
sell date strictly before the vesting date gives non-positive
components combining to a strictly negative figure. -/
theorem claim_C7_holding_period (vesting sell : PyDate)
    (hv : vesting.Valid) (hs : sell.Valid) :
    calculate_years_held vesting sell
        = ((relativedelta_dates sell vesting).1 : ℚ)
          + ((relativedelta_dates sell vesting).2.1 : ℚ) / 12
          + ((relativedelta_dates sell vesting).2.2 : ℚ) / 365 ∧
    (vesting = sell → calculate_years_held vesting sell = 0) ∧
    (dateLt sell vesting →
      (relativedelta_dates sell vesting).1 ≤ 0 ∧
      (relativedelta_dates sell vesting).2.1 ≤ 0 ∧
      (relativedelta_dates sell vesting).2.2 ≤ 0 ∧
      calculate_years_held vesting sell < 0) := by
  refine ⟨rfl, fun he => ?_, fun hlt => ?_⟩
  · subst he
    have e : calculate_years_held vesting vesting
        = ((relativedelta_dates vesting vesting).1 : ℚ)
          + ((relativedelta_dates vesting vesting).2.1 : ℚ) / 12
          + ((relativedelta_dates vesting vesting).2.2 : ℚ) / 365 := rfl
    rw [e, relativedelta_self vesting hv]
    norm_num
  · obtain ⟨hm_le, hD_le, hD0⟩ := relativedelta_neg hs hv hlt
    obtain ⟨hs1, hs2, _, hsn⟩ := setMonths_spec (rdMonths sell vesting)
    have hY : (relativedelta_dates sell vesting).1
        = (setMonths (rdMonths sell vesting)).1 := by
      rw [relativedelta_dates_eq]
    have hM : (relativedelta_dates sell vesting).2.1
        = (setMonths (rdMonths sell vesting)).2 := by
      rw [relativedelta_dates_eq]
    have hD : (relativedelta_dates sell vesting).2.2
        = toOrdinal sell - toOrdinal (rdFinal sell vesting) := by
      rw [relativedelta_dates_eq]
    refine ⟨?_, ?_, ?_, ?_⟩
    · rw [hY]; exact (hsn hm_le).1
    · rw [hM]; exact (hsn hm_le).2
    · rw [hD]; exact hD_le
    · have e : calculate_years_held vesting sell
          = ((relativedelta_dates sell vesting).1 : ℚ)
            + ((relativedelta_dates sell vesting).2.1 : ℚ) / 12
            + ((relativedelta_dates sell vesting).2.2 : ℚ) / 365 := rfl
      rw [e, hY, hM, hD]
      rcases hm_le.lt_or_eq with hmlt | hm0
      · have hle : rdMonths sell vesting ≤ -1 := by omega
        have c1 : (12 * (setMonths (rdMonths sell vesting)).1
            + (setMonths (rdMonths sell vesting)).2 : ℤ)
            = rdMonths sell vesting := hs1
        have c1' : 12 * ((setMonths (rdMonths sell vesting)).1 : ℚ)
            + ((setMonths (rdMonths sell vesting)).2 : ℚ)
            = ((rdMonths sell vesting : ℤ) : ℚ) := by
          exact_mod_cast c1
        have c2 : ((rdMonths sell vesting : ℤ) : ℚ) ≤ -1 := by
          exact_mod_cast hle
        have c3 : ((toOrdinal sell - toOrdinal (rdFinal sell vesting) : ℤ) : ℚ)
            ≤ 0 := by
          exact_mod_cast hD_le
        linarith
      · have hY0 : (setMonths (rdMonths sell vesting)).1 = 0 := by omega
        have hM0 : (setMonths (rdMonths sell vesting)).2 = 0 := by omega
        have hDlt := hD0 hm0
        have c3 : ((toOrdinal sell - toOrdinal (rdFinal sell vesting) : ℤ) : ℚ)
            < 0 := by
          exact_mod_cast hDlt
        rw [hY0, hM0]
        push_cast at c3 ⊢
        linarith

/-- Witness for C7: equal dates yield 0 years held, and selling one day
before vesting yields a negative figure. -/
theorem claim_C7_witness :
    calculate_years_held ⟨2024, 5, 10⟩ ⟨2024, 5, 10⟩ = 0 ∧
    calculate_years_held ⟨2024, 5, 10⟩ ⟨2024, 5, 9⟩ < 0 :=
  ⟨(claim_C7_holding_period ⟨2024, 5, 10⟩ ⟨2024, 5, 10⟩
      (by decide) (by decide)).2.1 rfl,
   ((claim_C7_holding_period ⟨2024, 5, 10⟩ ⟨2024, 5, 9⟩
      (by decide) (by decide)).2.2 (by decide)).2.2.2⟩

/-- The inline relief branching of the UI path computes the same flag
and rate as calculate_taper_relief. -/
theorem scenario_relief_eq (yh g : ℚ) (reg : TaxRegime) :
    ((if reg = TaxRegime.MACRON_I then
        if yh ≥ 8 then ((true : Bool), (0.65 : ℚ), "65% (held 8+ years)")
        else if yh ≥ 2 then (true, 0.50, "50% (held 2-8 years)")
        else (false, 0.0, "None (need 2+ years)")
      else if reg = TaxRegime.MACRON_III then
        if g ≤ MACRON_III_THRESHOLD then (true, 0.50, "50% (under €300,000)")
        else (false, 0.0, "None (over €300,000)")
      else (false, 0.0, "None (unrestricted)")).1
        = (calculate_taper_relief yh reg g).1) ∧
    ((if reg = TaxRegime.MACRON_I then
        if yh ≥ 8 then ((true : Bool), (0.65 : ℚ), "65% (held 8+ years)")
        else if yh ≥ 2 then (true, 0.50, "50% (held 2-8 years)")
        else (false, 0.0, "None (need 2+ years)")
      else if reg = TaxRegime.MACRON_III then
        if g ≤ MACRON_III_THRESHOLD then (true, 0.50, "50% (under €300,000)")
        else (false, 0.0, "None (over €300,000)")
      else (false, 0.0, "None (unrestricted)")).2.1
        = (calculate_taper_relief yh reg g).2) := by
  cases reg <;>
    simp [calculate_taper_relief, calculate_taper_relief_macron_i,
      calculate_taper_relief_macron_iii] <;>
    split_ifs <;> norm_num

/-- The inline social-security rate selection of the UI path computes
calculate_acquisition_social_security. -/
theorem scenario_ss_eq (gar g : ℚ) (reg : TaxRegime) :
    gar * (if reg = TaxRegime.MACRON_III ∧ g > MACRON_III_THRESHOLD
           then (0.097 : ℚ) else SOCIAL_SECURITY_RATES reg)
      = calculate_acquisition_social_security gar reg g := by
  unfold calculate_acquisition_social_security
  split_ifs <;> rfl

/-- The inline effective-rate conditional of the UI path computes
calculate_effective_tax_rate. -/
theorem scenario_eff_eq (T gp : ℚ) :
    (if gp > 0 then T / gp * 100 else 0) = calculate_effective_tax_rate T gp := by
  unfold calculate_effective_tax_rate
  split_ifs <;> first | rfl | linarith

/-- C9: the duplicate calculation path of the UI agrees with the core
engine on every numeric field both produce, whenever the two inputs share
dates, share count, USD values, conversion rate and regime, and either
both use the same annual income progressively or both use the same flat
rate. -/
theorem claim_C9_scenario_matches_pipeline
    (nm tick : String) (vd sd : PyDate) (n : ℤ) (vv cv fx tr : ℚ)
    (reg : TaxRegime) (uprog : Bool) (sai rai rtr : Option ℚ)
    (hcase : (∃ a : ℚ, uprog = true ∧ sai = some a ∧ rai = some a) ∨
             (uprog = false ∧ rai = none ∧ rtr = some tr)) :
    (calculate_scenario ⟨nm, tick, vd, sd, n, vv, cv, fx, reg, uprog, sai, tr⟩).years_held
        = (calculate_rsu_taxes ⟨vd, sd, n, vv, cv, fx, reg, rai, rtr⟩).years_held ∧
    (calculate_scenario ⟨nm, tick, vd, sd, n, vv, cv, fx, reg, uprog, sai, tr⟩).has_taper_relief
        = (calculate_rsu_taxes ⟨vd, sd, n, vv, cv, fx, reg, rai, rtr⟩).has_taper_relief ∧
    (calculate_scenario ⟨nm, tick, vd, sd, n, vv, cv, fx, reg, uprog, sai, tr⟩).taper_relief_rate
        = (calculate_rsu_taxes ⟨vd, sd, n, vv, cv, fx, reg, rai, rtr⟩).taper_relief_rate ∧
    (calculate_scenario ⟨nm, tick, vd, sd, n, vv, cv, fx, reg, uprog, sai, tr⟩).vesting_value_eur
        = (calculate_rsu_taxes ⟨vd, sd, n, vv, cv, fx, reg, rai, rtr⟩).vesting_value_eur ∧
    (calculate_scenario ⟨nm, tick, vd, sd, n, vv, cv, fx, reg, uprog, sai, tr⟩).current_value_eur
        = (calculate_rsu_taxes ⟨vd, sd, n, vv, cv, fx, reg, rai, rtr⟩).current_value_eur ∧
    (calculate_scenario ⟨nm, tick, vd, sd, n, vv, cv, fx, reg, uprog, sai, tr⟩).gross_proceed
        = (calculate_rsu_taxes ⟨vd, sd, n, vv, cv, fx, reg, rai, rtr⟩).gross_proceed ∧
    (calculate_scenario ⟨nm, tick, vd, sd, n, vv, cv, fx, reg, uprog, sai, tr⟩).acquisition_gain
        = (calculate_rsu_taxes ⟨vd, sd, n, vv, cv, fx, reg, rai, rtr⟩).acquisition_gain ∧
    (calculate_scenario ⟨nm, tick, vd, sd, n, vv, cv, fx, reg, uprog, sai, tr⟩).acquisition_gain_after_relief
        = (calculate_rsu_taxes ⟨vd, sd, n, vv, cv, fx, reg, rai, rtr⟩).acquisition_gain_after_relief ∧
    (calculate_scenario ⟨nm, tick, vd, sd, n, vv, cv, fx, reg, uprog, sai, tr⟩).capital_gain
        = (calculate_rsu_taxes ⟨vd, sd, n, vv, cv, fx, reg, rai, rtr⟩).capital_gain ∧
    (calculate_scenario ⟨nm, tick, vd, sd, n, vv, cv, fx, reg, uprog, sai, tr⟩).acquisition_social_security
        = (calculate_rsu_taxes ⟨vd, sd, n, vv, cv, fx, reg, rai, rtr⟩).acquisition_social_security ∧
    (calculate_scenario ⟨nm, tick, vd, sd, n, vv, cv, fx, reg, uprog, sai, tr⟩).acquisition_income_tax
        = (calculate_rsu_taxes ⟨vd, sd, n, vv, cv, fx, reg, rai, rtr⟩).acquisition_income_tax ∧
    (calculate_scenario ⟨nm, tick, vd, sd, n, vv, cv, fx, reg, uprog, sai, tr⟩).capital_gain_tax
        = (calculate_rsu_taxes ⟨vd, sd, n, vv, cv, fx, reg, rai, rtr⟩).capital_gain_tax ∧
    (calculate_scenario ⟨nm, tick, vd, sd, n, vv, cv, fx, reg, uprog, sai, tr⟩).salariale_contribution
        = (calculate_rsu_taxes ⟨vd, sd, n, vv, cv, fx, reg, rai, rtr⟩).salariale_contribution ∧
    (calculate_scenario ⟨nm, tick, vd, sd, n, vv, cv, fx, reg, uprog, sai, tr⟩).total_taxes
        = (calculate_rsu_taxes ⟨vd, sd, n, vv, cv, fx, reg, rai, rtr⟩).total_taxes ∧
    (calculate_scenario ⟨nm, tick, vd, sd, n, vv, cv, fx, reg, uprog, sai, tr⟩).net_in_pocket
        = (calculate_rsu_taxes ⟨vd, sd, n, vv, cv, fx, reg, rai, rtr⟩).net_in_pocket ∧
    (calculate_scenario ⟨nm, tick, vd, sd, n, vv, cv, fx, reg, uprog, sai, tr⟩).effective_tax_rate
        = (calculate_rsu_taxes ⟨vd, sd, n, vv, cv, fx, reg, rai, rtr⟩).effective_tax_rate := by
  set S := calculate_scenario ⟨nm, tick, vd, sd, n, vv, cv, fx, reg, uprog, sai, tr⟩ with hSdef
  set R := calculate_rsu_taxes ⟨vd, sd, n, vv, cv, fx, reg, rai, rtr⟩ with hRdef
  have hpair := scenario_relief_eq (calculate_years_held vd sd)
    ((n : ℚ) * (vv * fx)) reg
  have hHas : S.has_taper_relief = R.has_taper_relief := hpair.1
  have hRate : S.taper_relief_rate = R.taper_relief_rate := hpair.2
  have hAcq : S.acquisition_gain = R.acquisition_gain := rfl
  have hGross : S.gross_proceed = R.gross_proceed := rfl
  have eSga : S.acquisition_gain_after_relief
      = S.acquisition_gain * (1 - S.taper_relief_rate) := rfl
  have eRga : R.acquisition_gain_after_relief
      = R.acquisition_gain * (1 - R.taper_relief_rate) := rfl
  have hGar : S.acquisition_gain_after_relief
      = R.acquisition_gain_after_relief := by
    rw [eSga, eRga, hAcq, hRate]
  have eSS : S.acquisition_social_security
      = S.acquisition_gain_after_relief
        * (if reg = TaxRegime.MACRON_III
              ∧ S.acquisition_gain > MACRON_III_THRESHOLD
           then (0.097 : ℚ) else SOCIAL_SECURITY_RATES reg) := rfl
  have eRS : R.acquisition_social_security
      = calculate_acquisition_social_security R.acquisition_gain_after_relief
          reg R.acquisition_gain := rfl
  have hSS : S.acquisition_social_security = R.acquisition_social_security := by
    rw [eSS, hGar, hAcq, eRS]
    exact scenario_ss_eq R.acquisition_gain_after_relief R.acquisition_gain reg
  have hCGT : S.capital_gain_tax = R.capital_gain_tax := rfl
  have hSAL : S.salariale_contribution = R.salariale_contribution := rfl
  have hIT : S.acquisition_income_tax = R.acquisition_income_tax := by
    obtain ⟨a, hu, hsai, hrai⟩ | ⟨hu, hrai, hrtr⟩ := hcase
    · subst hu; subst hsai; subst hrai
      have eSI : S.acquisition_income_tax
          = calculate_tax_on_additional_income a
              S.acquisition_gain_after_relief := rfl
      have eRI : R.acquisition_income_tax
          = calculate_tax_on_additional_income a
              R.acquisition_gain_after_relief := rfl
      rw [eSI, eRI, hGar]
    · subst hu; subst hrai; subst hrtr
      have eSI : S.acquisition_income_tax
          = S.acquisition_gain_after_relief * tr := rfl
      have eRI : R.acquisition_income_tax
          = R.acquisition_gain_after_relief * tr := rfl
      rw [eSI, eRI, hGar]
  have eST : S.total_taxes
      = S.acquisition_social_security + S.acquisition_income_tax
        + S.capital_gain_tax + S.salariale_contribution := rfl
  have eRT : R.total_taxes
      = R.acquisition_social_security + R.acquisition_income_tax
        + R.capital_gain_tax + R.salariale_contribution := rfl
  have hT : S.total_taxes = R.total_taxes := by
    rw [eST, eRT, hSS, hIT, hCGT, hSAL]
  have hN : S.net_in_pocket = R.net_in_pocket := by
    have eSN : S.net_in_pocket = S.gross_proceed - S.total_taxes := rfl
    have eRN : R.net_in_pocket = R.gross_proceed - R.total_taxes := rfl
    rw [eSN, eRN, hGross, hT]
  have hE : S.effective_tax_rate = R.effective_tax_rate := by
    have eSE : S.effective_tax_rate
        = (if S.gross_proceed > 0
           then S.total_taxes / S.gross_proceed * 100 else 0) := rfl
    have eRE : R.effective_tax_rate
        = calculate_effective_tax_rate R.total_taxes R.gross_proceed := rfl
    rw [eSE, eRE, hGross, hT]
    exact scenario_eff_eq R.total_taxes R.gross_proceed
  exact ⟨rfl, hHas, hRate, rfl, rfl, hGross, hAcq, hGar, rfl, hSS, hIT, hCGT,
    hSAL, hT, hN, hE⟩

/-- Witness for C9: a concrete progressive-tax scenario where the UI path
and the engine agree on the net in pocket. -/
theorem claim_C9_witness :
    (calculate_scenario ⟨"A", "META", ⟨2024, 2, 15⟩, ⟨2026, 2, 15⟩, 10, 100,
        150, 0.92, .MACRON_I, true, some 50000, 0.30⟩).net_in_pocket
      = (calculate_rsu_taxes ⟨⟨2024, 2, 15⟩, ⟨2026, 2, 15⟩, 10, 100, 150,
          0.92, .MACRON_I, some 50000, none⟩).net_in_pocket :=
  (claim_C9_scenario_matches_pipeline "A" "META" ⟨2024, 2, 15⟩ ⟨2026, 2, 15⟩
    10 100 150 0.92 0.30 .MACRON_I true (some 50000) (some 50000) none
    (Or.inl ⟨50000, rfl, rfl, rfl⟩)).2.2.2.2.2.2.2.2.2.2.2.2.2.2.1

end RSU
